import Mathlib

/-!
Shallow embedding of the manual-journal posting subsystem of the
bigcapital repository, translated from
`src/server/src/http/controllers/Accounting.js` (handlers
`makeJournalEntries`, `editManualJournal`, `deleteManualJournal`).

The controller delegates to two service classes that are not part of the
source tree (`@/services/Accounting/JournalPoster` and
`@/services/Accounting/JournalEntry`); those two are modelled from the
spec (section 4.1), as indicated on their doc comments.  Everything else
is translated from the controller source.

Numbers: the HTTP validation layer coerces every amount with
`isNumeric().toInt()`, so amounts are integers (`Int` here); an absent or
null amount is `Option.none`.  JavaScript truthiness on a coerced amount
(`entry.credit || entry.debit`, `if (entry.debit)`) is `truthy` below:
false exactly on an absent amount or the number 0.
-/

namespace Bigcapital

/-- Normal side of an account (`account.type.normal`): whether a debit or
a credit increases the account's balance. -/
inductive Normal where
  | debit
  | credit
deriving DecidableEq, Repr

/-- A row of the accounts store (`Account` model): only the fields the
controller reads (`id` and `type.normal`). -/
structure Account where
  id : Nat
  normal : Normal
deriving DecidableEq, Repr

/-- One raw line of the request body's `entries` array, after the
express-validator coercions (`credit`/`debit` optional integers,
`account_id` required integer). -/
structure EntryLine where
  account_id : Nat
  debit : Option Int
  credit : Option Int
  note : String
deriving DecidableEq, Repr

/-- The validated request body of a create/edit call (the `form` object:
`date`, `journal_number`, `reference`, `description`, `entries`).  The
type-level validators (`isISO8601`, `isNumeric`, ...) are discharged by
the typing; the one structural validator that remains is
`entries.isArray with min 2`, checked by the handlers below. -/
structure JournalForm where
  date : String
  journal_number : String
  reference : String
  description : String
  entries : List EntryLine
deriving DecidableEq, Repr

/-- A row of the `manual_journals` table (`ManualJournal` model), with the
columns written by the controller. -/
structure ManualJournal where
  id : Nat
  journal_number : String
  reference : String
  transaction_type : String
  amount : Int
  date : String
  description : String
  user_id : Nat
deriving DecidableEq, Repr

/-- A row of the `accounts_transactions` table (`AccountTransaction`
model): one committed ledger entry.  `accountNormal` is the normal side
of the referenced account (the controller graph-fetches `account.type`
when loading rows, which resolves to the same value). -/
structure AccountTransaction where
  id : Nat
  referenceType : String
  referenceId : Nat
  account : Nat
  accountNormal : Normal
  debit : Option Int
  credit : Option Int
  note : String
  date : String
  userId : Nat
deriving DecidableEq, Repr

/-- The durable store: accounts, journal documents, committed entries and
per-account running balances, plus the id sequences of the two mutable
tables. -/
structure Store where
  accounts : List Account
  documents : List ManualJournal
  transactions : List AccountTransaction
  balances : Nat → Int
  nextDocId : Nat
  nextTxId : Nat

/-- JavaScript truthiness of a coerced numeric field: false exactly for
an absent/null value or the number 0. -/
def truthy : Option Int → Bool
  | none => false
  | some v => v ≠ 0

/-- Numeric value of an optional amount where the source does arithmetic
with it (absent behaves as contributing nothing). -/
def amount0 : Option Int → Int
  | none => 0
  | some v => v

/-- The filter at Accounting.js:168 and :317:
`form.entries.filter((entry) => (entry.credit || entry.debit))`. -/
def entryLineKept (e : EntryLine) : Bool :=
  truthy e.credit || truthy e.debit

/-- `totalCredit` accumulation (Accounting.js:171-178): only strictly
positive credit amounts are added. -/
def totalCreditOf (es : List EntryLine) : Int :=
  es.foldl (fun acc e => if 0 < amount0 e.credit then acc + amount0 e.credit else acc) 0

/-- `totalDebit` accumulation (Accounting.js:171-178): only strictly
positive debit amounts are added. -/
def totalDebitOf (es : List EntryLine) : Int :=
  es.foldl (fun acc e => if 0 < amount0 e.debit then acc + amount0 e.debit else acc) 0

/-- lodash `difference(xs, ys)`: the elements of `xs` that do not occur
in `ys` (Accounting.js:195). -/
def difference (xs ys : List Nat) : List Nat :=
  xs.filter (fun x => ¬ x ∈ ys)

/-- An element of the `errorReasons` array: `{ type, code }`. -/
structure ErrReason where
  type : String
  code : Nat
deriving DecidableEq, Repr

def zeroTotalReason : ErrReason :=
  { type := "CREDIT.DEBIT.SUMATION.SHOULD.NOT.EQUAL.ZERO", code := 400 }

def mismatchReason : ErrReason :=
  { type := "CREDIT.DEBIT.NOT.EQUALS", code := 100 }

def accountsNotFoundReason : ErrReason :=
  { type := "ACCOUNTS.IDS.NOT.FOUND", code := 200 }

def duplicateNumberReason : ErrReason :=
  { type := "JOURNAL.NUMBER.ALREADY.EXISTS", code := 300 }

def notFoundReason : ErrReason :=
  { type := "MANUAL.JOURNAL.NOT.FOUND", code := 100 }

/-- The observable outcome of one handler call.  `badData` is the
`res.boom.badData` response to an express-validator failure; `err` is a
`res.status(s).send with errors` response; `thrown` is an exception that
escaped the handler (reaching `asyncMiddleware`); `persistenceFailure`
is the injected mid-commit store failure used to examine atomicity;
`ok` is the 200 response. -/
inductive HandlerResult where
  | badData
  | err (status : Nat) (errors : List ErrReason)
  | thrown
  | persistenceFailure
  | ok (id : Nat)
deriving DecidableEq, Repr

/-- Modelled from the spec: the constructor of
`@/services/Accounting/JournalEntry` (file absent from src).  Spec 4.1:
"an entry with both debit and credit set, or neither, is rejected at
construction with InvalidEntryError"; spec 7: a "non-positive amount" is
also InvalidEntryError.  "Set" follows the truthiness convention the
controller itself uses to route a line to the debit or the credit bucket
(`if (entry.debit)`), so a zero amount counts as not set. -/
structure JournalEntry where
  debit : Option Int
  credit : Option Int
  account : Nat
  referenceType : String
  referenceId : Nat
  accountNormal : Normal
  note : String
  date : String
  userId : Nat
deriving DecidableEq, Repr

inductive PostError where
  | invalidEntry
  | accountNotFound
deriving DecidableEq, Repr

/-- Modelled from the spec: validated construction of a `JournalEntry`
(spec 4.1 edge cases and spec 7 error taxonomy). -/
def JournalEntry.make (debit credit : Option Int) (account : Nat)
    (referenceType : String) (referenceId : Nat) (accountNormal : Normal)
    (note date : String) (userId : Nat) : Except PostError JournalEntry :=
  if truthy debit && truthy credit then .error .invalidEntry
  else if !truthy debit && !truthy credit then .error .invalidEntry
  else if amount0 debit < 0 ∨ amount0 credit < 0 then .error .invalidEntry
  else .ok {
    debit := debit, credit := credit, account := account,
    referenceType := referenceType, referenceId := referenceId,
    accountNormal := accountNormal, note := note, date := date,
    userId := userId }

/-- Modelled from the spec: the state of a
`@/services/Accounting/JournalPoster` (file absent from src).  `staged`
holds the entries pushed through `debit`/`credit` in call order (the
spec's debit and credit buckets, which every subsequent operation treats
uniformly); `loadedTxs` the previously committed rows given to
`loadEntries`; `removedTxs` those marked pending-deletion by
`removeEntries`. -/
structure JournalPoster where
  staged : List JournalEntry
  loadedTxs : List AccountTransaction
  removedTxs : List AccountTransaction
deriving DecidableEq, Repr

def JournalPoster.new : JournalPoster :=
  { staged := [], loadedTxs := [], removedTxs := [] }

/-- Modelled from the spec: stage a debit entry. -/
def JournalPoster.debit (p : JournalPoster) (e : JournalEntry) : JournalPoster :=
  { p with staged := p.staged ++ [e] }

/-- Modelled from the spec: stage a credit entry. -/
def JournalPoster.credit (p : JournalPoster) (e : JournalEntry) : JournalPoster :=
  { p with staged := p.staged ++ [e] }

/-- Modelled from the spec: `loadEntries` loads previously-persisted
entries into the poster for subsequent removal. -/
def JournalPoster.loadEntries (p : JournalPoster) (txs : List AccountTransaction) :
    JournalPoster :=
  { p with loadedTxs := txs }

/-- Modelled from the spec: `removeEntries` marks every loaded entry as
pending-deletion (its balance effect will be negated by `saveBalance`). -/
def JournalPoster.removeEntries (p : JournalPoster) : JournalPoster :=
  { p with removedTxs := p.loadedTxs }

/-- Spec 4.1 balance delta rule: normal side DEBIT gives
`+debit - credit`; normal side CREDIT gives `+credit - debit`. -/
def entryDelta (normal : Normal) (debit credit : Option Int) : Int :=
  match normal with
  | .debit => amount0 debit - amount0 credit
  | .credit => amount0 credit - amount0 debit

def entryToTx (n : Nat) (e : JournalEntry) : AccountTransaction :=
  { id := n, referenceType := e.referenceType, referenceId := e.referenceId,
    account := e.account, accountNormal := e.accountNormal,
    debit := e.debit, credit := e.credit, note := e.note, date := e.date,
    userId := e.userId }

/-- Rows inserted for a staged list, with consecutive fresh ids. -/
def stageTxs : List JournalEntry → Nat → List AccountTransaction
  | [], _ => []
  | e :: es, n => entryToTx n e :: stageTxs es (n + 1)

/-- Modelled from the spec: `saveEntries` inserts every staged entry as a
committed transaction row. -/
def JournalPoster.saveEntries (p : JournalPoster) (st : Store) : Store :=
  { st with
    transactions := st.transactions ++ stageTxs p.staged st.nextTxId,
    nextTxId := st.nextTxId + p.staged.length }

/-- Modelled from the spec: `deleteEntries` deletes every row marked
pending-deletion from the transactions table. -/
def JournalPoster.deleteEntries (p : JournalPoster) (st : Store) : Store :=
  { st with
    transactions :=
      st.transactions.filter (fun t => ¬ p.removedTxs.any (fun r => r.id == t.id)) }

/-- Apply the positive balance contribution of each staged entry. -/
def applyEntryDeltas (es : List JournalEntry) (b : Nat → Int) : Nat → Int :=
  es.foldl
    (fun b e => fun a =>
      if a = e.account then b a + entryDelta e.accountNormal e.debit e.credit
      else b a) b

/-- Apply the negated balance contribution of each removed row. -/
def reverseTxDeltas (ts : List AccountTransaction) (b : Nat → Int) : Nat → Int :=
  ts.foldl
    (fun b t => fun a =>
      if a = t.account then b a - entryDelta t.accountNormal t.debit t.credit
      else b a) b

/-- Modelled from the spec: `saveBalance` applies the net per-account
delta of the staged entries (positively) and the removed entries
(negatively) to the account balances. -/
def JournalPoster.saveBalance (p : JournalPoster) (st : Store) : Store :=
  { st with balances := reverseTxDeltas p.removedTxs (applyEntryDeltas p.staged st.balances) }

/-- The set of referenced account ids that the account store cannot
resolve (Accounting.js:189-195): `difference(accountsIds, storedAccountsIds)`
where `storedAccountsIds` is the `whereIn` fetch result. -/
def missingAccountIds (st : Store) (form : JournalForm) : List Nat :=
  let entries := form.entries.filter entryLineKept
  let accountsIds := entries.map (fun e => e.account_id)
  let accounts := st.accounts.filter (fun a => a.id ∈ accountsIds)
  difference accountsIds (accounts.map (fun a => a.id))

/-- The `errorReasons` array accumulated by the create handler
(Accounting.js:180-204), in push order: zero totals, credit/debit
mismatch, unresolved accounts, duplicate journal number. -/
def journalErrorReasons (st : Store) (form : JournalForm) : List ErrReason :=
  let entries := form.entries.filter entryLineKept
  let totalCredit := totalCreditOf entries
  let totalDebit := totalDebitOf entries
  (if totalCredit ≤ 0 ∨ totalDebit ≤ 0 then [zeroTotalReason] else []) ++
  (if totalCredit ≠ totalDebit then [mismatchReason] else []) ++
  (if 0 < (missingAccountIds st form).length then [accountsNotFoundReason] else []) ++
  (if 0 < (st.documents.filter (fun d => d.journal_number = form.journal_number)).length
   then [duplicateNumberReason] else [])

/-- The entry-construction loop of the create handler
(Accounting.js:221-240): for each line, find the fetched account, build a
`JournalEntry` carrying the account's normal side, and stage it on the
debit or the credit side by the truthiness of `entry.debit`.  A
construction failure escapes the loop as a thrown error. -/
def buildEntries (docId : Nat) (date : String) (userId : Nat)
    (accounts : List Account) :
    List EntryLine → JournalPoster → Except PostError JournalPoster
  | [], p => .ok p
  | e :: rest, p =>
    match accounts.find? (fun a => a.id = e.account_id) with
    | none => .error .accountNotFound
    | some account =>
      match JournalEntry.make e.debit e.credit account.id "Journal" docId
          account.normal e.note date userId with
      | .error err => .error err
      | .ok je =>
        let p2 := if truthy e.debit then p.debit je else p.credit je
        buildEntries docId date userId accounts rest p2

/-- Outcome of the create handler up to (and including) constructing the
entries, before any commit step.  `thrownAfterDoc` records that the
document row was already inserted when entry construction threw. -/
inductive CreateOutcome where
  | badData
  | domainErr (errs : List ErrReason)
  | thrownAfterDoc (doc : ManualJournal)
  | ready (doc : ManualJournal) (poster : JournalPoster)
deriving DecidableEq, Repr

def Store.insertDoc (st : Store) (doc : ManualJournal) : Store :=
  { st with documents := st.documents ++ [doc], nextDocId := st.nextDocId + 1 }

/-- The create handler `makeJournalEntries.handler` (Accounting.js:148-240)
up to the commit step: request validation (`entries` array of at least 2),
the collected domain validations, the document row to insert
(`amount := totalCredit`, `transaction_type := "Journal"`), and the
constructed poster.  Date formatting (`moment(...).format`) is a
normalization of an already-ISO date and is not modelled; no claim
observes it. -/
def makeJournalPrepare (st : Store) (form : JournalForm) (userId : Nat) :
    CreateOutcome :=
  if form.entries.length < 2 then .badData
  else
    let errs := journalErrorReasons st form
    if errs ≠ [] then .domainErr errs
    else
      let entries := form.entries.filter entryLineKept
      let doc : ManualJournal :=
        { id := st.nextDocId, journal_number := form.journal_number,
          reference := form.reference, transaction_type := "Journal",
          amount := totalCreditOf entries, date := form.date,
          description := form.description, user_id := userId }
      let accounts := st.accounts.filter
        (fun a => a.id ∈ entries.map (fun e => e.account_id))
      match buildEntries st.nextDocId form.date userId accounts entries
          JournalPoster.new with
      | .error _ => .thrownAfterDoc doc
      | .ok poster => .ready doc poster

/-- The create handler `makeJournalEntries.handler` (Accounting.js:148-247):
validation, domain checks, document insert, entry construction, then
`Promise.all of saveEntries and saveBalance`.  `fault := true` injects
the persistence failure of spec 8.2: the store fails after the entries
write and before the balance write. -/
def makeJournalEntries (st : Store) (form : JournalForm) (userId : Nat)
    (fault : Bool) : HandlerResult × Store :=
  match makeJournalPrepare st form userId with
  | .badData => (.badData, st)
  | .domainErr errs => (.err 400 errs, st)
  | .thrownAfterDoc doc => (.thrown, st.insertDoc doc)
  | .ready doc poster =>
    let st1 := st.insertDoc doc
    let st2 := poster.saveEntries st1
    if fault then (.persistenceFailure, st2)
    else (.ok doc.id, poster.saveBalance st2)

/-- The `errorReasons` array accumulated by the edit handler
(Accounting.js:328-353), in its push order: zero totals, credit/debit
mismatch, duplicate journal number (excluding the edited id, via
`whereNot('id', id)`), unresolved accounts. -/
def editErrorReasons (st : Store) (id : Nat) (form : JournalForm) :
    List ErrReason :=
  let entries := form.entries.filter entryLineKept
  let totalCredit := totalCreditOf entries
  let totalDebit := totalDebitOf entries
  (if totalCredit ≤ 0 ∨ totalDebit ≤ 0 then [zeroTotalReason] else []) ++
  (if totalCredit ≠ totalDebit then [mismatchReason] else []) ++
  (if (st.documents.find?
        (fun d => d.journal_number = form.journal_number ∧ ¬ d.id = id)).isSome
   then [duplicateNumberReason] else []) ++
  (if 0 < (missingAccountIds st form).length then [accountsNotFoundReason] else [])

/-- The edit handler `editManualJournal.handler` (Accounting.js:290-385):
request validation, document lookup (404-family response on a missing
id, with the literal status 4040 the source sends), the collected domain
validations, the document update (`amount := totalCredit`), then loading
the committed rows with `reference_type` in `['Journal']` only, marking
them removed, and running `deleteEntries`, `saveEntries` and
`saveBalance`.  Note the handler never constructs entries from the
request lines, so the poster's staged list stays empty. -/
def editManualJournal (st : Store) (id : Nat) (form : JournalForm) :
    HandlerResult × Store :=
  if form.entries.length < 2 then (.badData, st)
  else
    match st.documents.find? (fun d => d.id = id) with
    | none => (.err 4040 [notFoundReason], st)
    | some mj =>
      let errs := editErrorReasons st id form
      if errs ≠ [] then (.err 400 errs, st)
      else
        let entries := form.entries.filter entryLineKept
        let upd : ManualJournal → ManualJournal := fun d =>
          { id := d.id, journal_number := form.journal_number,
            reference := form.reference, transaction_type := "Journal",
            amount := totalCreditOf entries, date := form.date,
            description := form.description, user_id := d.user_id }
        let st1 : Store :=
          { st with documents := st.documents.map (fun d =>
              if d.id = mj.id then upd d else d) }
        let transactions := st1.transactions.filter
          (fun t => t.referenceType = "Journal" ∧ t.referenceId = mj.id)
        let journal := (JournalPoster.new.loadEntries transactions).removeEntries
        let st2 := journal.deleteEntries st1
        let st3 := journal.saveEntries st2
        let st4 := journal.saveBalance st3
        (.ok mj.id, st4)

/-- The delete handler `deleteManualJournal.handler`
(Accounting.js:421-456): document lookup (404 on a missing id), loading
the committed rows with `reference_type` in `['Journal', 'ManualJournal']`,
marking them removed, deleting the document row, then `deleteEntries`
and `saveBalance`. -/
def deleteManualJournal (st : Store) (id : Nat) : HandlerResult × Store :=
  match st.documents.find? (fun d => d.id = id) with
  | none => (.err 404 [notFoundReason], st)
  | some mj =>
    let transactions := st.transactions.filter
      (fun t => (t.referenceType = "Journal" ∨ t.referenceType = "ManualJournal") ∧
        t.referenceId = mj.id)
    let journal := (JournalPoster.new.loadEntries transactions).removeEntries
    let st1 : Store :=
      { st with documents := st.documents.filter (fun d => ¬ d.id = mj.id) }
    let st2 := journal.deleteEntries st1
    let st3 := journal.saveBalance st2
    (.ok id, st3)

/-! Concrete fixtures used by the closed theorems and witnesses: a store
with one debit-normal account (id 1) and one credit-normal account
(id 2), and small request forms. -/

def baseStore : Store :=
  { accounts := [{ id := 1, normal := .debit }, { id := 2, normal := .credit }],
    documents := [], transactions := [], balances := fun _ => 0,
    nextDocId := 1, nextTxId := 1 }

def debitLine (acct : Nat) (v : Int) : EntryLine :=
  { account_id := acct, debit := some v, credit := none, note := "" }

def creditLine (acct : Nat) (v : Int) : EntryLine :=
  { account_id := acct, debit := none, credit := some v, note := "" }

def emptyLine : EntryLine :=
  { account_id := 1, debit := none, credit := none, note := "" }

def mkForm (jn : String) (es : List EntryLine) : JournalForm :=
  { date := "2020-01-01", journal_number := jn, reference := "",
    description := "", entries := es }

/-- A balanced 100/100 create request under journal number J-1. -/
def formJ1 : JournalForm := mkForm "J-1" [debitLine 1 100, creditLine 2 100]

/-- A balanced 40/40 request under journal number J-1 (the edit request
of the spec's concrete scenario, section 8.6). -/
def formJ1b : JournalForm := mkForm "J-1" [debitLine 1 40, creditLine 2 40]

example : (makeJournalEntries baseStore formJ1 7 false).1 = .ok 1 := by decide

example : (makeJournalEntries baseStore formJ1 7 false).2.balances 1 = 100 := by decide

example : (makeJournalEntries baseStore formJ1 7 false).2.balances 2 = 100 := by decide

example :
    (editManualJournal (makeJournalEntries baseStore formJ1 7 false).2 1 formJ1b).1
      = .ok 1 := by decide

example :
    (editManualJournal (makeJournalEntries baseStore formJ1 7 false).2 1 formJ1b).2.balances 1
      = 0 := by decide

example :
    (editManualJournal (makeJournalEntries baseStore formJ1 7 false).2 1 formJ1b).2.transactions
      = [] := by decide

example : (makeJournalEntries baseStore formJ1b 7 false).2.balances 1 = 40 := by decide

/-! Helper lemmas shared by the claim theorems. -/

/-- When a domain validation fails, the create handler returns the
collected error reasons with status 400 and leaves the store untouched. -/
theorem makeJournalEntries_domainErr (st : Store) (form : JournalForm)
    (u : Nat) (fault : Bool) (hv : 2 ≤ form.entries.length)
    (hne : journalErrorReasons st form ≠ []) :
    makeJournalEntries st form u fault = (.err 400 (journalErrorReasons st form), st) := by
  have h1 : ¬ form.entries.length < 2 := by omega
  unfold makeJournalEntries makeJournalPrepare
  rw [if_neg h1, if_pos hne]

/-- When a domain validation fails, the edit handler returns the
collected error reasons with status 400 and leaves the store untouched. -/
theorem editManualJournal_domainErr (st : Store) (id : Nat)
    (form : JournalForm) (mj : ManualJournal) (hv : 2 ≤ form.entries.length)
    (hfind : st.documents.find? (fun d => d.id = id) = some mj)
    (hne : editErrorReasons st id form ≠ []) :
    editManualJournal st id form = (.err 400 (editErrorReasons st id form), st) := by
  have h1 : ¬ form.entries.length < 2 := by omega
  unfold editManualJournal
  rw [if_neg h1, hfind]
  dsimp only
  rw [if_pos hne]

/-- Claim C10: a create or edit request whose raw `entries` array has
fewer than 2 elements is rejected by the `isArray` validator with a
validation error, before any domain validation and with the store
untouched. -/
theorem entries_min_two_validation (st : Store) (form : JournalForm)
    (u id : Nat) (fault : Bool) (h : form.entries.length < 2) :
    makeJournalEntries st form u fault = (.badData, st) ∧
    editManualJournal st id form = (.badData, st) := by
  constructor
  · unfold makeJournalEntries makeJournalPrepare
    rw [if_pos h]
  · unfold editManualJournal
    rw [if_pos h]

/-- Witness for C10 at a one-line request. -/
theorem entries_min_two_validation_witness :
    makeJournalEntries baseStore (mkForm "W10" [debitLine 1 100]) 7 false
      = (.badData, baseStore) ∧
    editManualJournal baseStore 1 (mkForm "W10" [debitLine 1 100])
      = (.badData, baseStore) :=
  entries_min_two_validation baseStore (mkForm "W10" [debitLine 1 100]) 7 1 false
    (by decide)

/-- Claim C3: with the filtered lines summed, a non-positive total credit
or total debit puts the zero-total reason among the collected errors, and
unequal totals put the mismatch reason there; in either case the create
handler answers with the 400 error response and the store is unchanged
(no document, entry or balance write). -/
theorem createJournal_unbalanced_totals_fail (st : Store) (form : JournalForm)
    (u : Nat) (fault : Bool) (hv : 2 ≤ form.entries.length) :
    (totalCreditOf (form.entries.filter entryLineKept) ≤ 0 ∨
        totalDebitOf (form.entries.filter entryLineKept) ≤ 0 →
      makeJournalEntries st form u fault
          = (.err 400 (journalErrorReasons st form), st) ∧
        zeroTotalReason ∈ journalErrorReasons st form) ∧
    (totalCreditOf (form.entries.filter entryLineKept) ≠
        totalDebitOf (form.entries.filter entryLineKept) →
      makeJournalEntries st form u fault
          = (.err 400 (journalErrorReasons st form), st) ∧
        mismatchReason ∈ journalErrorReasons st form) := by
  constructor
  · intro h
    have hmem : zeroTotalReason ∈ journalErrorReasons st form := by
      unfold journalErrorReasons
      simp only [h, if_true, if_pos]
      exact List.mem_append_left _ (List.mem_append_left _
        (List.mem_append_left _ (List.mem_singleton.mpr rfl)))
    exact ⟨makeJournalEntries_domainErr st form u fault hv
      (List.ne_nil_of_mem hmem), hmem⟩
  · intro h
    have hmem : mismatchReason ∈ journalErrorReasons st form := by
      unfold journalErrorReasons
      simp only [h, if_true, if_pos, ne_eq, not_false_iff]
      exact List.mem_append_left _ (List.mem_append_left _
        (List.mem_append_right _ (List.mem_singleton.mpr rfl)))
    exact ⟨makeJournalEntries_domainErr st form u fault hv
      (List.ne_nil_of_mem hmem), hmem⟩

/-- Witness for C3 at the spec's concrete failure scenario (8.7): a
100-debit against a 90-credit. -/
theorem createJournal_unbalanced_totals_fail_witness :
    makeJournalEntries baseStore (mkForm "W3" [debitLine 1 100, creditLine 2 90]) 7 false
      = (.err 400 (journalErrorReasons baseStore
          (mkForm "W3" [debitLine 1 100, creditLine 2 90])), baseStore) ∧
    mismatchReason ∈ journalErrorReasons baseStore
      (mkForm "W3" [debitLine 1 100, creditLine 2 90]) :=
  (createJournal_unbalanced_totals_fail baseStore
    (mkForm "W3" [debitLine 1 100, creditLine 2 90]) 7 false (by decide)).2
    (by decide)

/-- Claim C1: the spec's reversal-correctness scenario (sections 4.2 and
8.6) evaluated on the code.  Post 100/100 under J-1, then edit to 40/40.
The edit succeeds, reverses the old entries and updates the document
(its amount is now 40), but the handler never constructs or stages the
new entries, so afterwards the document has no entries at all and the
balances are 0 — whereas posting the 40/40 entries directly yields
balances of 40.  The claim (balances as if the old document had never
been posted and the new entries posted directly) fails on every edit;
the code contradicts the obvious intent (the handler validates the new
lines, fetches their accounts with the normal side needed only for
entry construction, stores `amount := totalCredit` of the new lines,
and calls `saveEntries` — yet stages nothing). -/
theorem editManualJournal_never_posts_new_entries :
    (makeJournalEntries baseStore formJ1 7 false).1 = .ok 1 ∧
    (editManualJournal (makeJournalEntries baseStore formJ1 7 false).2 1 formJ1b).1
      = .ok 1 ∧
    (editManualJournal (makeJournalEntries baseStore formJ1 7 false).2 1 formJ1b).2.balances 1
      = 0 ∧
    (editManualJournal (makeJournalEntries baseStore formJ1 7 false).2 1 formJ1b).2.balances 2
      = 0 ∧
    (editManualJournal (makeJournalEntries baseStore formJ1 7 false).2 1 formJ1b).2.transactions
      = [] ∧
    (editManualJournal (makeJournalEntries baseStore formJ1 7 false).2 1 formJ1b).2.documents.map
        (fun d => d.amount) = [40] ∧
    (makeJournalEntries baseStore formJ1b 7 false).2.balances 1 = 40 ∧
    (makeJournalEntries baseStore formJ1b 7 false).2.balances 2 = 40 := by
  decide

/-- Counterexample to claim C2: a create call whose commit fails after
the entries write and before the balance write (the claim's own fault
scenario) reports a failure, yet afterwards the journal document and
both journal entries are visible — the document row is inserted and
awaited before the entries/balances commit, and nothing is rolled
back.  The claim requires that no document and no entry be visible. -/
theorem createJournal_midcommit_fault_partial_state_visible :
    (makeJournalEntries baseStore formJ1 7 true).1 = .persistenceFailure ∧
    (makeJournalEntries baseStore formJ1 7 true).2.documents.length = 1 ∧
    (makeJournalEntries baseStore formJ1 7 true).2.transactions.length = 2 ∧
    (makeJournalEntries baseStore formJ1 7 true).2.balances 1 = 0 := by
  decide

/-- Claim C2 as amended: for every create call that would commit
successfully, a persistence failure injected after the entries write and
before the balance write reports a failure and leaves the balances
unchanged, but the inserted document and the written entries remain
visible: the three writes are sequential awaits, not one atomic unit. -/
theorem createJournal_midcommit_fault_behavior (st : Store)
    (form : JournalForm) (u i : Nat)
    (h : (makeJournalEntries st form u false).1 = .ok i) :
    (makeJournalEntries st form u true).1 = .persistenceFailure ∧
    (makeJournalEntries st form u true).2.balances = st.balances ∧
    (∃ d, (makeJournalEntries st form u true).2.documents = st.documents ++ [d]) ∧
    (∃ txs, (makeJournalEntries st form u true).2.transactions
      = st.transactions ++ txs) := by
  unfold makeJournalEntries at h ⊢
  cases hP : makeJournalPrepare st form u
  case badData => rw [hP] at h; simp at h
  case domainErr errs => rw [hP] at h; simp at h
  case thrownAfterDoc doc => rw [hP] at h; simp at h
  case ready doc poster =>
    exact ⟨rfl, rfl, ⟨doc, rfl⟩, ⟨stageTxs poster.staged (st.insertDoc doc).nextTxId, rfl⟩⟩

/-- Witness for C2's amended theorem at the concrete 100/100 request. -/
theorem createJournal_midcommit_fault_behavior_witness :
    (makeJournalEntries baseStore formJ1 7 false).1 = .ok 1 ∧
    (makeJournalEntries baseStore formJ1 7 true).1 = .persistenceFailure ∧
    (makeJournalEntries baseStore formJ1 7 true).2.balances = baseStore.balances :=
  ⟨by decide,
    (createJournal_midcommit_fault_behavior baseStore formJ1 7 1 (by decide)).1,
    (createJournal_midcommit_fault_behavior baseStore formJ1 7 1 (by decide)).2.1⟩

/-- A create request whose first line has a set debit of 0 (a set,
non-positive amount) next to two good lines. -/
def formZeroLine : JournalForm :=
  mkForm "Z-1"
    [{ account_id := 1, debit := some 0, credit := none, note := "" },
      debitLine 1 100, creditLine 2 100]

/-- A balanced create request whose first line has both a non-zero debit
and a non-zero credit set. -/
def formBothSet : JournalForm :=
  mkForm "B-1"
    [{ account_id := 1, debit := some 100, credit := some 100, note := "" },
      debitLine 1 50, creditLine 2 50]

/-- Counterexample to claim C4: a line whose debit is set to the
non-positive amount 0 is not rejected with InvalidEntryError — the
create call succeeds and simply drops the line (only the other two lines
become entries), because the filter at Accounting.js:168 treats a zero
amount as absent. -/
theorem zero_amount_line_silently_ignored :
    (makeJournalEntries baseStore formZeroLine 7 false).1 = .ok 1 ∧
    (makeJournalEntries baseStore formZeroLine 7 false).2.transactions.length = 2 := by
  decide

/-- Auxiliary: an amount that is negative is truthy. -/
theorem truthy_of_neg {x : Option Int} (h : amount0 x < 0) : truthy x = true := by
  cases x
  · simp [amount0] at h
  · simp only [truthy, amount0] at h ⊢
    simp only [decide_eq_true_eq]
    omega

/-- Claim C4 as amended: a line with both a non-zero debit and a
non-zero credit, or with a negative amount, is rejected at entry
construction with InvalidEntryError (entry construction modelled from
the spec, as the JournalEntry service is not in the source tree), and
the posting operation that reaches such a line throws instead of
posting; but a line whose set amount is 0 is dropped silently by the
filter before construction — it yields no error and no entry. -/
theorem invalid_entry_rejection_amended :
    (∀ (d c : Option Int) (acct : Nat) (rt : String) (rid : Nat)
        (an : Normal) (note date : String) (uid : Nat),
      truthy d = true → truthy c = true →
      JournalEntry.make d c acct rt rid an note date uid = .error .invalidEntry) ∧
    (∀ (d c : Option Int) (acct : Nat) (rt : String) (rid : Nat)
        (an : Normal) (note date : String) (uid : Nat),
      amount0 d < 0 ∨ amount0 c < 0 →
      JournalEntry.make d c acct rt rid an note date uid = .error .invalidEntry) ∧
    (∀ e : EntryLine, truthy e.debit = false → truthy e.credit = false →
      entryLineKept e = false) ∧
    (makeJournalEntries baseStore formBothSet 7 false).1 = .thrown := by
  refine ⟨?_, ?_, ?_, by decide⟩
  · intro d c acct rt rid an note date uid h1 h2
    simp [JournalEntry.make, h1, h2]
  · intro d c acct rt rid an note date uid h
    rcases h with h | h
    · have hd := truthy_of_neg h
      by_cases hc : truthy c = true
      · simp [JournalEntry.make, hd, hc]
      · simp only [Bool.not_eq_true] at hc
        simp [JournalEntry.make, hd, hc, h]
    · have hc := truthy_of_neg h
      by_cases hd : truthy d = true
      · simp [JournalEntry.make, hd, hc]
      · simp only [Bool.not_eq_true] at hd
        simp [JournalEntry.make, hd, hc, h]
  · intro e h1 h2
    simp [entryLineKept, h1, h2]

/-- Witness for C4's amended theorem at concrete inputs. -/
theorem invalid_entry_rejection_amended_witness :
    JournalEntry.make (some 5) (some 5) 1 "Journal" 1 .debit "" "2020-01-01" 7
      = .error .invalidEntry ∧
    JournalEntry.make (some (-3)) none 1 "Journal" 1 .debit "" "2020-01-01" 7
      = .error .invalidEntry ∧
    entryLineKept emptyLine = false :=
  ⟨invalid_entry_rejection_amended.1 (some 5) (some 5) 1 "Journal" 1 .debit
      "" "2020-01-01" 7 (by decide) (by decide),
    invalid_entry_rejection_amended.2.1 (some (-3)) none 1 "Journal" 1 .debit
      "" "2020-01-01" 7 (by decide),
    invalid_entry_rejection_amended.2.2.1 emptyLine (by decide) (by decide)⟩

/-- Request referencing the missing account 5 (and the present 1). -/
def formMissA : JournalForm := mkForm "M-1" [debitLine 1 100, creditLine 5 100]

/-- Request referencing the missing accounts 5 and 7. -/
def formMissB : JournalForm := mkForm "M-1" [debitLine 5 100, creditLine 7 100]

/-- Counterexample to claim C5: two create requests whose sets of
missing account ids differ — one misses account 5, the other misses
5 and 7 — produce literally identical error responses, the constant
record with type ACCOUNTS.IDS.NOT.FOUND and code 200
(Accounting.js:195-197).  The error payload therefore cannot and does
not carry the set of missing ids. -/
theorem unknown_account_error_payload_constant :
    missingAccountIds baseStore formMissA = [5] ∧
    missingAccountIds baseStore formMissB = [5, 7] ∧
    (makeJournalEntries baseStore formMissA 7 false).1
      = .err 400 [accountsNotFoundReason] ∧
    (makeJournalEntries baseStore formMissB 7 false).1
      = (makeJournalEntries baseStore formMissA 7 false).1 := by
  decide

/-- Claim C5 as amended: a create request referencing at least one
account id absent from the account store fails with the
accounts-not-found error (the check computes the full lodash difference
of referenced against stored ids, so every missing id is detected) and
changes nothing; but the error payload is the fixed type/code record and
carries no account ids. -/
theorem createJournal_unknown_accounts_fail (st : Store) (form : JournalForm)
    (u : Nat) (fault : Bool) (hv : 2 ≤ form.entries.length)
    (hmiss : missingAccountIds st form ≠ []) :
    makeJournalEntries st form u fault
      = (.err 400 (journalErrorReasons st form), st) ∧
    accountsNotFoundReason ∈ journalErrorReasons st form := by
  have hlen : 0 < (missingAccountIds st form).length :=
    List.length_pos.mpr hmiss
  have hmem : accountsNotFoundReason ∈ journalErrorReasons st form := by
    unfold journalErrorReasons
    simp only [hlen, if_true, if_pos]
    exact List.mem_append_left _ (List.mem_append_right _
      (List.mem_singleton.mpr rfl))
  exact ⟨makeJournalEntries_domainErr st form u fault hv
    (List.ne_nil_of_mem hmem), hmem⟩

/-- Witness for C5's amended theorem at the request missing account 5. -/
theorem createJournal_unknown_accounts_fail_witness :
    makeJournalEntries baseStore formMissA 7 false
      = (.err 400 (journalErrorReasons baseStore formMissA), baseStore) ∧
    accountsNotFoundReason ∈ journalErrorReasons baseStore formMissA :=
  createJournal_unknown_accounts_fail baseStore formMissA 7 false
    (by decide) (by decide)

/-- Claim C6: create fails with the duplicate-journal-number error
whenever any existing (hence non-deleted: deletion removes the row)
document carries the request's journal number; edit runs the same check
but with `whereNot('id', id)`, so a match on any other document fails it
while a match on the edited document alone does not. -/
theorem journal_number_uniqueness :
    (∀ (st : Store) (form : JournalForm) (u : Nat) (fault : Bool),
      2 ≤ form.entries.length →
      (∃ d ∈ st.documents, d.journal_number = form.journal_number) →
      makeJournalEntries st form u fault
          = (.err 400 (journalErrorReasons st form), st) ∧
        duplicateNumberReason ∈ journalErrorReasons st form) ∧
    (∀ (st : Store) (id : Nat) (form : JournalForm) (mj : ManualJournal),
      2 ≤ form.entries.length →
      st.documents.find? (fun d => d.id = id) = some mj →
      (∃ d ∈ st.documents, d.journal_number = form.journal_number ∧ ¬ d.id = id) →
      editManualJournal st id form
          = (.err 400 (editErrorReasons st id form), st) ∧
        duplicateNumberReason ∈ editErrorReasons st id form) ∧
    (∀ (st : Store) (id : Nat) (form : JournalForm),
      (∀ d ∈ st.documents, d.journal_number = form.journal_number → d.id = id) →
      duplicateNumberReason ∉ editErrorReasons st id form) := by
  refine ⟨?_, ?_, ?_⟩
  · intro st form u fault hv hdup
    obtain ⟨d, hd, hjn⟩ := hdup
    have hfmem : d ∈ st.documents.filter
        (fun d => d.journal_number = form.journal_number) :=
      List.mem_filter.mpr ⟨hd, by simp only [decide_eq_true_eq]; exact hjn⟩
    have hlen : 0 < (st.documents.filter
        (fun d => d.journal_number = form.journal_number)).length :=
      List.length_pos.mpr (List.ne_nil_of_mem hfmem)
    have hmem : duplicateNumberReason ∈ journalErrorReasons st form := by
      unfold journalErrorReasons
      simp only [hlen, if_true, if_pos]
      exact List.mem_append_right _ (List.mem_singleton.mpr rfl)
    exact ⟨makeJournalEntries_domainErr st form u fault hv
      (List.ne_nil_of_mem hmem), hmem⟩
  · intro st id form mj hv hfind hdup
    obtain ⟨d, hd, hjn, hne⟩ := hdup
    have hsome : (st.documents.find?
        (fun d => d.journal_number = form.journal_number ∧ ¬ d.id = id)).isSome :=
      List.find?_isSome.mpr ⟨d, hd, by simp only [decide_eq_true_eq]; exact ⟨hjn, hne⟩⟩
    have hmem : duplicateNumberReason ∈ editErrorReasons st id form := by
      unfold editErrorReasons
      simp only [hsome, if_true, if_pos]
      exact List.mem_append_left _ (List.mem_append_right _
        (List.mem_singleton.mpr rfl))
    exact ⟨editManualJournal_domainErr st id form mj hv hfind
      (List.ne_nil_of_mem hmem), hmem⟩
  · intro st id form h
    have hnone : st.documents.find?
        (fun d => d.journal_number = form.journal_number ∧ ¬ d.id = id) = none := by
      rw [List.find?_eq_none]
      intro d hd
      simp only [decide_eq_true_eq, not_and, not_not]
      exact h d hd
    unfold editErrorReasons
    simp only [hnone, Option.isSome_none, Bool.false_eq_true, if_false]
    split_ifs <;> decide

/-- Witness for C6: a second create under the already-used number J-1
fails with the duplicate error, and an edit of document 1 that keeps its
own number J-1 collects no duplicate error. -/
theorem journal_number_uniqueness_witness :
    (makeJournalEntries (makeJournalEntries baseStore formJ1 7 false).2 formJ1 7 false
        = (.err 400 (journalErrorReasons
            (makeJournalEntries baseStore formJ1 7 false).2 formJ1),
          (makeJournalEntries baseStore formJ1 7 false).2) ∧
      duplicateNumberReason ∈ journalErrorReasons
        (makeJournalEntries baseStore formJ1 7 false).2 formJ1) ∧
    duplicateNumberReason ∉ editErrorReasons
      (makeJournalEntries baseStore formJ1 7 false).2 1 formJ1b :=
  ⟨journal_number_uniqueness.1 (makeJournalEntries baseStore formJ1 7 false).2
      formJ1 7 false (by decide)
      ⟨{ id := 1, journal_number := "J-1", reference := "",
          transaction_type := "Journal", amount := 100, date := "2020-01-01",
          description := "", user_id := 7 }, by decide, by decide⟩,
    journal_number_uniqueness.2.2 (makeJournalEntries baseStore formJ1 7 false).2
      1 formJ1b (by decide)⟩

/-- A delete of a missing id answers the 404 not-found error and leaves
the store untouched. -/
theorem deleteManualJournal_none (st : Store) (id : Nat)
    (h : st.documents.find? (fun d => d.id = id) = none) :
    deleteManualJournal st id = (.err 404 [notFoundReason], st) := by
  unfold deleteManualJournal
  rw [h]

/-- After any delete call, no document with the deleted id remains. -/
theorem deleteManualJournal_removes_doc (st : Store) (id : Nat) :
    (deleteManualJournal st id).2.documents.find? (fun d => d.id = id) = none := by
  cases hf : st.documents.find? (fun d => d.id = id)
  case none =>
    unfold deleteManualJournal
    rw [hf]
    exact hf
  case some mj =>
    have hpa := List.find?_some hf
    have hid : mj.id = id := by
      simpa using hpa
    unfold deleteManualJournal
    rw [hf]
    simp only [JournalPoster.saveBalance, JournalPoster.deleteEntries,
      JournalPoster.removeEntries, JournalPoster.loadEntries, JournalPoster.new]
    rw [List.find?_eq_none]
    intro d hd
    simp only [List.mem_filter, decide_eq_true_eq] at hd
    obtain ⟨-, hd2⟩ := hd
    simp only [decide_eq_true_eq]
    omega

/-- Claim C7: edit and delete of an id that resolves to no document
answer the not-found error (status 4040 and 404 respectively, the
literal codes the source sends) with the store untouched; and after any
delete, deleting the same id again always answers not-found and changes
nothing — in particular no balance changes on the second call. -/
theorem document_not_found_and_double_delete :
    (∀ (st : Store) (id : Nat) (form : JournalForm),
      2 ≤ form.entries.length →
      st.documents.find? (fun d => d.id = id) = none →
      editManualJournal st id form = (.err 4040 [notFoundReason], st)) ∧
    (∀ (st : Store) (id : Nat),
      st.documents.find? (fun d => d.id = id) = none →
      deleteManualJournal st id = (.err 404 [notFoundReason], st)) ∧
    (∀ (st : Store) (id : Nat),
      deleteManualJournal (deleteManualJournal st id).2 id
        = (.err 404 [notFoundReason], (deleteManualJournal st id).2)) := by
  refine ⟨?_, deleteManualJournal_none, ?_⟩
  · intro st id form hv hnone
    unfold editManualJournal
    rw [if_neg (by omega), hnone]
  · intro st id
    exact deleteManualJournal_none _ id (deleteManualJournal_removes_doc st id)

/-- Witness for C7: not-found responses on the empty store, and the
double delete of the posted document 1. -/
theorem document_not_found_and_double_delete_witness :
    editManualJournal baseStore 99 formJ1 = (.err 4040 [notFoundReason], baseStore) ∧
    deleteManualJournal baseStore 99 = (.err 404 [notFoundReason], baseStore) ∧
    deleteManualJournal
        (deleteManualJournal (makeJournalEntries baseStore formJ1 7 false).2 1).2 1
      = (.err 404 [notFoundReason],
        (deleteManualJournal (makeJournalEntries baseStore formJ1 7 false).2 1).2) :=
  ⟨document_not_found_and_double_delete.1 baseStore 99 formJ1 (by decide) (by decide),
    document_not_found_and_double_delete.2.1 baseStore 99 (by decide),
    document_not_found_and_double_delete.2.2
      (makeJournalEntries baseStore formJ1 7 false).2 1⟩

/-- A two-line request whose second line has neither debit nor credit. -/
def formPad : JournalForm := mkForm "P-1" [debitLine 1 100, emptyLine]

/-- The same request with the empty line actually absent. -/
def formPadReduced : JournalForm := mkForm "P-1" [debitLine 1 100]

/-- Counterexample to claim C8: the empty line is dropped silently, but
the remaining line is not processed exactly as if the dropped line were
never present — the dropped line still counts toward the
`isArray min 2` validation.  With the empty line present the request
passes validation and fails the domain checks (zero-total and mismatch,
status 400); with it absent the request is rejected by validation
(badData) instead.  The two outcomes differ. -/
theorem dropped_line_affects_validation_outcome :
    (makeJournalEntries baseStore formPad 7 false).1
      = .err 400 [zeroTotalReason, mismatchReason] ∧
    (makeJournalEntries baseStore formPadReduced 7 false).1 = .badData ∧
    (makeJournalEntries baseStore formPad 7 false).1
      ≠ (makeJournalEntries baseStore formPadReduced 7 false).1 := by
  decide

/-- Filtering by kept lines is idempotent. -/
theorem filter_entryLineKept_idem (l : List EntryLine) :
    (l.filter entryLineKept).filter entryLineKept = l.filter entryLineKept := by
  simp [List.filter_filter]

/-- Claim C8 as amended: lines with neither a truthy debit nor a truthy
credit are dropped before totals, domain validations and entry
construction, produce no error and no entry, and the remaining lines
are processed exactly as if the dropped lines were never present —
provided the request with the dropped lines removed still has at least
2 lines, because the dropped lines do still count toward the raw
`entries` array's minimum-length validation. -/
theorem dropped_lines_ignored_after_validation (st : Store)
    (u docId : Nat) (fault : Bool) (form : JournalForm)
    (h2 : 2 ≤ (form.entries.filter entryLineKept).length) :
    makeJournalEntries st form u fault
      = makeJournalEntries st
          { form with entries := form.entries.filter entryLineKept } u fault ∧
    editManualJournal st docId form
      = editManualJournal st docId
          { form with entries := form.entries.filter entryLineKept } := by
  have hle := List.length_filter_le entryLineKept form.entries
  have hlen2 : ¬ form.entries.length < 2 := by omega
  have hlenF : ¬ (form.entries.filter entryLineKept).length < 2 := by omega
  constructor
  · unfold makeJournalEntries makeJournalPrepare journalErrorReasons missingAccountIds
    simp only [if_neg hlen2, if_neg hlenF, filter_entryLineKept_idem]
  · unfold editManualJournal editErrorReasons missingAccountIds
    simp only [if_neg hlen2, if_neg hlenF, filter_entryLineKept_idem]

/-- Witness for C8's amended theorem: a three-line request with one
empty line is processed exactly like the two-line request without it. -/
theorem dropped_lines_ignored_after_validation_witness :
    makeJournalEntries baseStore (mkForm "W8" [debitLine 1 100, emptyLine, creditLine 2 100]) 7 false
      = makeJournalEntries baseStore
          { mkForm "W8" [debitLine 1 100, emptyLine, creditLine 2 100] with
            entries := (mkForm "W8" [debitLine 1 100, emptyLine, creditLine 2 100]).entries.filter
              entryLineKept } 7 false :=
  (dropped_lines_ignored_after_validation baseStore 7 1 false
    (mkForm "W8" [debitLine 1 100, emptyLine, creditLine 2 100]) (by decide)).1

/-- Claim C9: edit loads (and therefore reverses and deletes) only the
rows with referenceType Journal, while delete loads the rows with
referenceType Journal or ManualJournal.  For a document all of whose
committed rows are tagged ManualJournal, a successful edit leaves the
transactions table and every balance unchanged (the old effects stay in
place), while a delete reverses exactly those rows' balance effects. -/
theorem reversal_scope_journal_vs_manualjournal (st : Store) (id : Nat)
    (form : JournalForm) (mj : ManualJournal)
    (hv : 2 ≤ form.entries.length)
    (hfind : st.documents.find? (fun d => d.id = id) = some mj)
    (herrs : editErrorReasons st id form = [])
    (hMJ : ∀ t ∈ st.transactions, t.referenceId = mj.id →
      t.referenceType = "ManualJournal") :
    (editManualJournal st id form).1 = .ok mj.id ∧
    (editManualJournal st id form).2.balances = st.balances ∧
    (editManualJournal st id form).2.transactions = st.transactions ∧
    (deleteManualJournal st id).2.balances
      = reverseTxDeltas
          (st.transactions.filter (fun t => t.referenceId = mj.id))
          st.balances := by
  have hload : st.transactions.filter
      (fun t => decide (t.referenceType = "Journal") && decide (t.referenceId = mj.id))
      = [] := by
    rw [List.filter_eq_nil_iff]
    intro t ht
    simp only [Bool.and_eq_true, decide_eq_true_eq, not_and]
    intro hJ href
    have hmjt := hMJ t ht href
    rw [hJ] at hmjt
    exact absurd hmjt (by decide)
  have hcong : st.transactions.filter
      (fun t => (decide (t.referenceType = "Journal") ||
          decide (t.referenceType = "ManualJournal")) &&
        decide (t.referenceId = mj.id))
      = st.transactions.filter (fun t => t.referenceId = mj.id) := by
    apply List.filter_congr
    intro t ht
    by_cases h : t.referenceId = mj.id
    · have hmjt := hMJ t ht h
      simp [h, hmjt]
    · simp [h]
  have hne : ¬ (editErrorReasons st id form ≠ []) := by
    simp [herrs]
  refine ⟨?_, ?_, ?_, ?_⟩
  · unfold editManualJournal
    rw [if_neg (by omega), hfind]
    dsimp only
    rw [if_neg hne]
  · unfold editManualJournal
    rw [if_neg (by omega), hfind]
    dsimp only
    rw [if_neg hne]
    simp [hload, JournalPoster.new, JournalPoster.loadEntries,
      JournalPoster.removeEntries, JournalPoster.deleteEntries,
      JournalPoster.saveEntries, JournalPoster.saveBalance,
      applyEntryDeltas, reverseTxDeltas, stageTxs]
  · unfold editManualJournal
    rw [if_neg (by omega), hfind]
    dsimp only
    rw [if_neg hne]
    simp [hload, JournalPoster.new, JournalPoster.loadEntries,
      JournalPoster.removeEntries, JournalPoster.deleteEntries,
      JournalPoster.saveEntries, JournalPoster.saveBalance,
      applyEntryDeltas, reverseTxDeltas, stageTxs]
  · unfold deleteManualJournal
    rw [hfind]
    dsimp only
    simp only [JournalPoster.new, JournalPoster.loadEntries,
      JournalPoster.removeEntries, JournalPoster.deleteEntries,
      JournalPoster.saveBalance]
    simp [applyEntryDeltas, hcong]

/-- The document of the legacy-tagged store below. -/
def docMJ : ManualJournal :=
  { id := 1, journal_number := "J-1", reference := "",
    transaction_type := "Journal", amount := 100, date := "2020-01-01",
    description := "", user_id := 7 }

/-- A store holding document 1 whose two committed rows are tagged with
referenceType ManualJournal (the legacy tag the delete handler also
loads), with the balances they produced. -/
def storeMJ : Store :=
  { accounts := [{ id := 1, normal := .debit }, { id := 2, normal := .credit }],
    documents := [docMJ],
    transactions :=
      [{ id := 1, referenceType := "ManualJournal", referenceId := 1,
          account := 1, accountNormal := .debit, debit := some 100,
          credit := none, note := "", date := "2020-01-01", userId := 7 },
        { id := 2, referenceType := "ManualJournal", referenceId := 1,
          account := 2, accountNormal := .credit, debit := none,
          credit := some 100, note := "", date := "2020-01-01", userId := 7 }],
    balances := fun a => if a = 1 then 100 else if a = 2 then 100 else 0,
    nextDocId := 2, nextTxId := 3 }

/-- Witness for C9 on the legacy-tagged store: editing document 1 leaves
transactions and balances alone; deleting it reverses the two rows. -/
theorem reversal_scope_journal_vs_manualjournal_witness :
    (editManualJournal storeMJ 1 formJ1b).1 = .ok docMJ.id ∧
    (editManualJournal storeMJ 1 formJ1b).2.balances = storeMJ.balances ∧
    (editManualJournal storeMJ 1 formJ1b).2.transactions = storeMJ.transactions ∧
    (deleteManualJournal storeMJ 1).2.balances
      = reverseTxDeltas
          (storeMJ.transactions.filter (fun t => t.referenceId = docMJ.id))
          storeMJ.balances :=
  reversal_scope_journal_vs_manualjournal storeMJ 1 formJ1b docMJ
    (by decide) (by decide) (by decide) (by decide)

end Bigcapital
